import Mathlib

/-!
Verification development for the DataFast MCP server (Cloudflare Workers,
TypeScript).  The repository ships two variants of the server:

* the main worker (`src/index.ts`, extended in the companion source file with
  the batch / validate / revenue-goal / analytics-summary tools) — embedded
  below in namespace `DF`;
* an alternative server ("DataFa.st MCP") with `track_payment` and its own
  `get_visitor_data` — embedded in namespace `DFAlt`.

Each tool handler is translated into a pure Lean function.  An outbound
`fetch` is modelled by an `Upstream` outcome supplied as an argument (one per
call the handler can make), and the handler returns the result envelope
together with the ordered list of API calls it performed, so call-count and
call-body assertions can be stated directly.  JavaScript numbers are modelled
as exact decimal fixed-point values (`JNum`); `toFixed`, `Math.round`,
comparison and default number printing are modelled on this exact domain
(faithful on all decimal-representable values, which are the only values the
handlers and the verified scenarios manipulate).
-/

/-- Pad a natural number with leading zeros to `d` digits (decimal). -/
def natPad (n : Nat) (d : Nat) : String :=
  let s := toString n
  String.mk (List.replicate (d - s.length) '0') ++ s

/-- A JavaScript number, modelled exactly: the value `num / 10 ^ exp`. -/
structure JNum where
  num : Int
  exp : Nat
deriving DecidableEq, Repr

/-- A whole JavaScript number. -/
def JNum.ofInt (n : Int) : JNum := ⟨n, 0⟩

/-- Strip trailing decimal zeros (recursion on the exponent). -/
def JNum.canonAux : Int → Nat → JNum
  | n, 0 => ⟨n, 0⟩
  | n, e + 1 => if n % 10 == 0 then JNum.canonAux (n / 10) e else ⟨n, e + 1⟩

/-- Canonical representation (no trailing decimal zeros). -/
def JNum.canon (q : JNum) : JNum := JNum.canonAux q.num q.exp

/-- Render `m / 10 ^ e` (with `m : Nat`) using exactly `e` decimal places. -/
def renderDec (m : Nat) (e : Nat) : String :=
  if e = 0 then toString m
  else toString (m / 10 ^ e) ++ "." ++ natPad (m % 10 ^ e) e

/-- JavaScript default number-to-string conversion (template-literal
interpolation): shortest decimal form, no trailing zeros.  Exact-decimal
model of IEEE-754 double printing; agrees with JS on decimal-representable
values. -/
def jsNumToString (q : JNum) : String :=
  let c := q.canon
  if c.num < 0 then "-" ++ renderDec (-c.num).toNat c.exp
  else renderDec c.num.toNat c.exp

/-- Round the magnitude `m / 10 ^ e` to `d` decimal places, half up, and
return the result scaled by `10 ^ d`. -/
def roundHalfUp (m e d : Nat) : Nat :=
  if e ≤ d then m * 10 ^ (d - e)
  else (2 * m + 10 ^ (e - d)) / (2 * 10 ^ (e - d))

/-- `Number.prototype.toFixed d` (ECMA-262: the magnitude is rounded to the
nearest `d`-decimal value, ties toward the larger magnitude-adjacent value,
then printed with exactly `d` decimal places and re-signed). -/
def toFixed (q : JNum) (d : Nat) : String :=
  if q.num < 0 then "-" ++ renderDec (roundHalfUp (-q.num).toNat q.exp d) d
  else renderDec (roundHalfUp q.num.toNat q.exp d) d

/-- JavaScript number multiplication (exact on this decimal domain). -/
def JNum.mul (a b : JNum) : JNum := ⟨a.num * b.num, a.exp + b.exp⟩

/-- `Math.round (q / c)` for a positive integer constant `c`:
`⌊q / c + 1/2⌋` (ties toward positive infinity). -/
def jsRoundDiv (q : JNum) (c : Nat) : Int :=
  let d : Int := ((10 ^ q.exp * c : Nat) : Int)
  Int.fdiv (2 * q.num + d) (2 * d)

/-- JavaScript `<` on numbers. -/
def JNum.ltB (a b : JNum) : Bool :=
  a.num * ((10 ^ b.exp : Nat) : Int) < b.num * ((10 ^ a.exp : Nat) : Int)

/-- JavaScript `>=` on numbers. -/
def JNum.geB (a b : JNum) : Bool := !(JNum.ltB a b)

/-- JavaScript truthiness of a number (`0` is falsy). -/
def JNum.truthy (q : JNum) : Bool := q.num != 0

/-- Does `p` occur at the start of `l`? (helper for substring search) -/
def listHasPfx : List Char → List Char → Bool
  | [], _ => true
  | _ :: _, [] => false
  | p :: ps, c :: cs => p == c && listHasPfx ps cs

/-- Does `p` occur anywhere inside `l`? -/
def listHasSub (p : List Char) : List Char → Bool
  | [] => listHasPfx p []
  | c :: cs => listHasPfx p (c :: cs) || listHasSub p cs

/-- Boolean substring test on strings (executable, kernel-reducible). -/
def strHasSub (s pat : String) : Bool := listHasSub pat.data s.data

theorem listHasPfx_self_append (p x : List Char) : listHasPfx p (p ++ x) = true := by
  induction p with
  | nil => rfl
  | cons c cs ih => simp [listHasPfx, ih]

theorem listHasSub_here (p x : List Char) : listHasSub p (p ++ x) = true := by
  cases p with
  | nil =>
    cases x with
    | nil => rfl
    | cons c cs => simp [listHasSub, listHasPfx]
  | cons c cs => simp [listHasSub, listHasPfx, listHasPfx_self_append]

theorem listHasSub_of_append (a p b : List Char) :
    listHasSub p (a ++ (p ++ b)) = true := by
  induction a with
  | nil => exact listHasSub_here p b
  | cons c cs ih => simp [listHasSub, ih]

/-- A string of the form `a ++ pat ++ b` contains `pat`. -/
theorem strHasSub_append (a pat b : String) :
    strHasSub (a ++ pat ++ b) pat = true := by
  have h : (a ++ pat ++ b).data = a.data ++ (pat.data ++ b.data) := by
    simp [String.data_append]
  simp only [strHasSub, h]
  exact listHasSub_of_append a.data pat.data b.data

/-- JSON values appearing in outbound request bodies.  The only nested
objects the handlers ever send are string-to-string metadata records, so the
object case is specialised to that shape. -/
inductive JVal where
  | s (v : String)
  | n (v : JNum)
  | b (v : Bool)
  | null
  | record (fields : List (String × String))
deriving DecidableEq, Repr

/-- Is this the JSON `null` value? -/
def JVal.isNull : JVal → Bool
  | .null => true
  | _ => false

/-- An outbound HTTP request performed by a handler. -/
structure ApiCall where
  url : String
  method : String
  body : Option (List (String × JVal))
deriving DecidableEq, Repr

/-- Key present in a request body? -/
def bodyHas (b : List (String × JVal)) (k : String) : Bool :=
  b.any (fun kv => kv.1 == k)

/-- First value stored under key `k` in a request body. -/
def bodyGet (b : List (String × JVal)) (k : String) : Option JVal :=
  (b.find? (fun kv => kv.1 == k)).map (fun kv => kv.2)

/-- JavaScript object-literal update on a string record: an existing key is
overwritten in place, a new key is appended (insertion order preserved). -/
def jsSet (l : List (String × String)) (k v : String) : List (String × String) :=
  if l.any (fun kv => kv.1 == k) then
    l.map (fun kv => if kv.1 == k then (kv.1, v) else kv)
  else l ++ [(k, v)]

/-- JavaScript spread-merge `\x7b ...base, ...ext \x7d` on string records. -/
def jsMerge (base ext : List (String × String)) : List (String × String) :=
  ext.foldl (fun acc kv => jsSet acc kv.1 kv.2) base

/-- Outcome of one `fetch` call, as the handler code observes it:
`success` = 2xx response with a JSON body parsed into the handler's cast
shape; `httpError` = response received with `response.ok` false, carrying the
status, the HTTP status text, and `error.message` extracted from the JSON
error body when that parse yields one (`none` when parsing fails or the field
is missing); `networkError` = `fetch` (or a 2xx `response.json()`) threw, with
the thrown error's message. -/
inductive Upstream (α : Type) where
  | success (body : α)
  | httpError (status : Nat) (statusText : String) (errMsg : Option String)
  | networkError (msg : String)
deriving DecidableEq, Repr

/-- Is the outcome a `success`? -/
def Upstream.isSuccessB {α : Type} : Upstream α → Bool
  | .success _ => true
  | _ => false

/-- The MCP result envelope: one text content block plus the error flag
(omitted in the source on success paths, which is the same as `false`). -/
structure Envelope where
  text : String
  isError : Bool := false
deriving DecidableEq, Repr

/-- JavaScript `x || y` on an optional string (`undefined` and `""` are
falsy). -/
def jsOr (o : Option String) (d : String) : String :=
  match o with
  | some s => if s.isEmpty then d else s
  | none => d

/-- JavaScript truthiness of an optional string. -/
def truthyStr : Option String → Bool
  | none => false
  | some s => !s.isEmpty

/-- The `Error <status>: <error.message || statusText>` line shared by every
non-2xx branch. -/
def errorLine (status : Nat) (statusText : String) (errMsg : Option String) : String :=
  "Error " ++ toString status ++ ": " ++ jsOr errMsg statusText

namespace DF

/-- Parsed 2xx body of `POST /api/v1/payments`. -/
structure PaymentResult where
  message : String
  transaction_id : String
deriving DecidableEq, Repr

/-- Parsed 2xx body of `POST /api/v1/goals` (`event_id` optional). -/
structure GoalResult where
  message : String
  event_id : Option String := none
deriving DecidableEq, Repr

/-- Caller-supplied `create_payment` arguments, before zod validation:
every optional field may be absent. -/
structure PaymentInput where
  amount : JNum
  currency : String
  transaction_id : String
  datafast_visitor_id : String
  email : Option String := none
  name : Option String := none
  customer_id : Option String := none
  renewal : Option Bool := none
  refunded : Option Bool := none
  timestamp : Option String := none
deriving DecidableEq, Repr

/-- `create_payment` parameters as the handler sees them after zod
validation: `renewal` and `refunded` are `.optional().default(false)`, so
they are always present (defaulted to `false` when the caller omitted
them). -/
structure PaymentParams where
  amount : JNum
  currency : String
  transaction_id : String
  datafast_visitor_id : String
  email : Option String := none
  name : Option String := none
  customer_id : Option String := none
  renewal : Bool := false
  refunded : Bool := false
  timestamp : Option String := none
deriving DecidableEq, Repr

/-- The zod validation step for `create_payment` (applies the schema
defaults). -/
def validatePayment (i : PaymentInput) : PaymentParams :=
  { amount := i.amount
    currency := i.currency
    transaction_id := i.transaction_id
    datafast_visitor_id := i.datafast_visitor_id
    email := i.email
    name := i.name
    customer_id := i.customer_id
    renewal := i.renewal.getD false
    refunded := i.refunded.getD false
    timestamp := i.timestamp }

/-- A conditionally-spread optional string field
`...(params.f && \x7b f: params.f \x7d)`: included iff truthy. -/
def optStrField (k : String) : Option String → List (String × JVal)
  | none => []
  | some s => if s.isEmpty then [] else [(k, JVal.s s)]

/-- The outbound body of `create_payment` (string fields spread by
truthiness; `renewal`/`refunded` guarded by `!== undefined`, which is always
true after the schema default, so they are always included). -/
def paymentBody (p : PaymentParams) : List (String × JVal) :=
  [("amount", JVal.n p.amount),
   ("currency", JVal.s p.currency),
   ("transaction_id", JVal.s p.transaction_id),
   ("datafast_visitor_id", JVal.s p.datafast_visitor_id)]
  ++ optStrField "email" p.email
  ++ optStrField "name" p.name
  ++ optStrField "customer_id" p.customer_id
  ++ [("renewal", JVal.b p.renewal), ("refunded", JVal.b p.refunded)]
  ++ optStrField "timestamp" p.timestamp

/-- The `create_payment` tool handler. -/
def create_payment (p : PaymentParams) (up : Upstream PaymentResult) :
    Envelope × List ApiCall :=
  let call : ApiCall := ⟨"https://datafa.st/api/v1/payments", "POST", some (paymentBody p)⟩
  match up with
  | .success r =>
      ({ text := "✅ Payment recorded successfully!\nMessage: " ++ r.message
                 ++ "\nTransaction ID: " ++ r.transaction_id }, [call])
  | .httpError st stx em =>
      ({ text := errorLine st stx em, isError := true }, [call])
  | .networkError m =>
      ({ text := "Network error: " ++ m, isError := true }, [call])

/-- `create_goal` parameters (metadata is a bounded string record; an object
is always truthy in JS, so the spread `...(metadata && \x7b metadata \x7d)`
includes it exactly when it is present). -/
structure GoalParams where
  datafast_visitor_id : String
  name : String
  metadata : Option (List (String × String)) := none
deriving DecidableEq, Repr

/-- The outbound body of `create_goal` (also used per item by
`batch_create_goals`). -/
def goalBody (g : GoalParams) : List (String × JVal) :=
  [("datafast_visitor_id", JVal.s g.datafast_visitor_id),
   ("name", JVal.s g.name)]
  ++ (match g.metadata with
      | some m => [("metadata", JVal.record m)]
      | none => [])

/-- The status-specific remediation hints appended by the goal-creation
error path (HTTP 400 / HTTP 404). -/
def goalErrorText (st : Nat) (stx : String) (em : Option String) : String :=
  let base := errorLine st stx em
  if st == 400 then
    base ++ " (Note: This might be because the visitor is detected as a bot or has no prior pageviews)"
  else if st == 404 then
    base ++ " (Note: This might be because the visitor has no prior pageviews)"
  else base

/-- The `create_goal` tool handler. -/
def create_goal (g : GoalParams) (up : Upstream GoalResult) :
    Envelope × List ApiCall :=
  let call : ApiCall := ⟨"https://datafa.st/api/v1/goals", "POST", some (goalBody g)⟩
  match up with
  | .success r =>
      ({ text := "✅ Goal created successfully!\nMessage: " ++ r.message
                 ++ "\nEvent ID: " ++ jsOr r.event_id "N/A" }, [call])
  | .httpError st stx em =>
      ({ text := goalErrorText st stx em, isError := true }, [call])
  | .networkError m =>
      ({ text := "Network error: " ++ m, isError := true }, [call])

/-- `visitor.identity.params` (only `ref` / `utm_source` are read). -/
structure TrafficParams where
  ref : Option String := none
  utm_source : Option String := none
deriving DecidableEq, Repr

/-- The `ref || utm_source || "Direct"` truthiness chain. -/
def trafficSource (p : TrafficParams) : String :=
  jsOr p.ref (jsOr p.utm_source "Direct")

/-- The identity block of a visitor record, as the handler reads it. -/
structure Identity where
  city : String
  country : String
  countryCode : String
  deviceType : String
  browserName : String
  browserVersion : String
  osName : String
  viewportWidth : JNum
  viewportHeight : JNum
  params : Option TrafficParams := none
deriving DecidableEq, Repr

/-- The activity block of a visitor record, as the handler reads it
(`firstVisitAt` and `timeSinceFirstVisit` are epoch-millisecond numbers). -/
structure Activity where
  visitCount : JNum
  pageViewCount : JNum
  firstVisitAt : JNum
  timeSinceFirstVisit : JNum
  currentUrl : String
  completedCustomGoals : Option (List String) := none
deriving DecidableEq, Repr

/-- The prediction block of a visitor record. -/
structure Prediction where
  score : JNum
  conversionRate : JNum
  expectedValue : JNum
  confidence : JNum
deriving DecidableEq, Repr

/-- The `data` object of a 2xx `GET /api/v1/visitors/\x7bid\x7d` body. -/
structure VisitorData where
  visitorId : String
  identity : Option Identity := none
  activity : Option Activity := none
  prediction : Option Prediction := none
deriving DecidableEq, Repr

/-- A parsed 2xx `GET /api/v1/visitors/\x7bid\x7d` body. -/
structure VisitorResponse where
  status : String
  data : Option VisitorData := none
deriving DecidableEq, Repr

/-- `result.status === "success" && result.data` (the well-formedness test
both visitor-reading handlers perform). -/
def wellFormedB (r : VisitorResponse) : Bool :=
  r.status == "success" && r.data.isSome

/-- The GET request both visitor tools issue. -/
def visitorCall (id : String) : ApiCall :=
  ⟨"https://datafa.st/api/v1/visitors/" ++ id, "GET", none⟩

/-- The identity section of `get_visitor_data`'s report. -/
def identitySection (i : Identity) : String :=
  "🌍 Location: " ++ i.city ++ ", " ++ i.country ++ " (" ++ i.countryCode ++ ")\n"
  ++ "🖥️ Device: " ++ i.deviceType ++ " - " ++ i.browserName ++ " "
  ++ i.browserVersion ++ " on " ++ i.osName ++ "\n"
  ++ "📐 Viewport: " ++ jsNumToString i.viewportWidth ++ "x"
  ++ jsNumToString i.viewportHeight ++ "\n"
  ++ (match i.params with
      | some p => "🔗 Traffic Source: " ++ trafficSource p ++ "\n"
      | none => "")

/-- The activity section of `get_visitor_data`'s report.  `fmtDateTime`
models the locale-dependent `new Date(..).toLocaleString()`. -/
def activitySection (fmtDateTime : JNum → String) (a : Activity) : String :=
  "\n📈 Activity:\n"
  ++ "   • Visits: " ++ jsNumToString a.visitCount ++ "\n"
  ++ "   • Pageviews: " ++ jsNumToString a.pageViewCount ++ "\n"
  ++ "   • First visit: " ++ fmtDateTime a.firstVisitAt ++ "\n"
  ++ "   • Time since first visit: "
  ++ toString (jsRoundDiv a.timeSinceFirstVisit (1000 * 60 * 60 * 24)) ++ " days\n"
  ++ "   • Current URL: " ++ a.currentUrl ++ "\n"
  ++ (match a.completedCustomGoals with
      | some gs =>
        if gs.length > 0 then
          "   • Completed goals: " ++ String.intercalate ", " gs ++ "\n"
        else ""
      | none => "")

/-- The prediction section of `get_visitor_data`'s report (no qualitative
recommendation is produced by this handler). -/
def predictionSection (o : Option Prediction) : String :=
  match o with
  | some p =>
    "\n🎯 Prediction:\n"
    ++ "   • Conversion score: " ++ jsNumToString p.score ++ "/100\n"
    ++ "   • Conversion rate: " ++ toFixed (JNum.mul p.conversionRate ⟨100, 0⟩) 2 ++ "%\n"
    ++ "   • Expected value: $" ++ toFixed p.expectedValue 2 ++ "\n"
    ++ "   • Confidence: " ++ toFixed (JNum.mul p.confidence ⟨100, 0⟩) 1 ++ "%\n"
  | none =>
    "\n🎯 Prediction: Not available (visitor might be a customer or revenue attribution isn't set up)\n"

/-- The full success report of `get_visitor_data`. -/
def visitorInfoText (fmtDateTime : JNum → String) (v : VisitorData) : String :=
  "📊 Visitor Data for ID: " ++ v.visitorId ++ "\n\n"
  ++ (match v.identity with
      | some i => identitySection i
      | none => "")
  ++ (match v.activity with
      | some a => activitySection fmtDateTime a
      | none => "")
  ++ predictionSection v.prediction

/-- The `get_visitor_data` tool handler. -/
def get_visitor_data (fmtDateTime : JNum → String) (id : String)
    (up : Upstream VisitorResponse) : Envelope × List ApiCall :=
  let call := visitorCall id
  match up with
  | .success r =>
      if wellFormedB r then
        ({ text := visitorInfoText fmtDateTime (r.data.getD ⟨"", none, none, none⟩) }, [call])
      else
        ({ text := "Unexpected response format from DataFast API" }, [call])
  | .httpError st stx em =>
      ({ text := errorLine st stx em
                 ++ (if st == 400 then
                       " (Note: This might be because the visitor is detected as a bot)"
                     else ""),
         isError := true }, [call])
  | .networkError m =>
      ({ text := "Network error: " ++ m, isError := true }, [call])

/-- One collected outcome record of `batch_create_goals` (for a failed item
`msg` holds `error.message || statusText` — no HTTP status — or the thrown
error's message). -/
structure BatchItemResult where
  goal : String
  visitor : String
  success : Bool
  msg : String
  event_id : Option String := none
deriving DecidableEq, Repr

/-- How one batch item's outcome is recorded (the per-item `try/catch`
converts even a thrown fetch into a failure record, so later items still
run). -/
def batchItemResult (g : GoalParams) (up : Upstream GoalResult) : BatchItemResult :=
  match up with
  | .success r => ⟨g.name, g.datafast_visitor_id, true, r.message, r.event_id⟩
  | .httpError _ stx em => ⟨g.name, g.datafast_visitor_id, false, jsOr em stx, none⟩
  | .networkError m => ⟨g.name, g.datafast_visitor_id, false, m, none⟩

/-- One line of the batch report. -/
def batchLine (r : BatchItemResult) : String :=
  if r.success then
    "   ✅ " ++ r.goal ++ " for " ++ r.visitor ++ ": " ++ r.msg ++ "\n"
  else
    "   ❌ " ++ r.goal ++ " for " ++ r.visitor ++ ": " ++ r.msg ++ "\n"

/-- The `batch_create_goals` tool handler.  Each input item is paired with
the outcome of its own goals-endpoint call; the loop visits them in input
order and no failure short-circuits the rest. -/
def batch_create_goals (items : List (GoalParams × Upstream GoalResult)) :
    Envelope × List ApiCall :=
  let results := items.map (fun gi => batchItemResult gi.1 gi.2)
  let successCount := (results.filter (fun r => r.success)).length
  let failureCount := (results.filter (fun r => !r.success)).length
  let summary :=
    "✅ Batch goal creation completed!\n"
    ++ "   • Successful: " ++ toString successCount ++ "\n"
    ++ "   • Failed: " ++ toString failureCount ++ "\n\n"
    ++ "📋 Results:\n"
    ++ String.join (results.map batchLine)
  ({ text := summary },
   items.map (fun gi => ⟨"https://datafa.st/api/v1/goals", "POST", some (goalBody gi.1)⟩))

/-- The `validate_visitor` tool handler.  Note: its HTTP-error text never
interpolates the numeric status, and a 2xx body that is not
`status = "success"` with data present yields an error envelope. -/
def validate_visitor (id : String) (up : Upstream VisitorResponse) :
    Envelope × List ApiCall :=
  let call := visitorCall id
  match up with
  | .success r =>
      if wellFormedB r then
        ({ text := "✅ Visitor ID \"" ++ id ++ "\" is valid and has data available." }, [call])
      else
        ({ text := "❌ Visitor ID \"" ++ id ++ "\" returned unexpected response format.",
           isError := true }, [call])
  | .httpError st stx em =>
      ({ text := "❌ Visitor ID \"" ++ id ++ "\" is invalid: "
                 ++ (if st == 400 then "Detected as bot or invalid format"
                     else if st == 404 then
                       "No pageviews found - visitor needs to visit your site first"
                     else jsOr em stx),
         isError := true }, [call])
  | .networkError m =>
      ({ text := "Network error validating visitor \"" ++ id ++ "\": " ++ m,
         isError := true }, [call])

/-- `create_revenue_goal` parameters (`currency` is schema-defaulted to
`"USD"`). -/
structure RevenueGoalParams where
  datafast_visitor_id : String
  goal_name : String
  revenue_amount : JNum
  currency : String := "USD"
  metadata : Option (List (String × String)) := none
deriving DecidableEq, Repr

/-- The metadata object of the goal-creation step:
`\x7b revenue_amount: amount.toString(), currency, ...metadata \x7d`. -/
def revenueGoalMetadata (p : RevenueGoalParams) : List (String × String) :=
  jsMerge [("revenue_amount", jsNumToString p.revenue_amount), ("currency", p.currency)]
    (p.metadata.getD [])

/-- The goals-endpoint call issued first by `create_revenue_goal`. -/
def revenueGoalCall (p : RevenueGoalParams) : ApiCall :=
  ⟨"https://datafa.st/api/v1/goals", "POST",
   some [("datafast_visitor_id", JVal.s p.datafast_visitor_id),
         ("name", JVal.s p.goal_name),
         ("metadata", JVal.record (revenueGoalMetadata p))]⟩

/-- The payments-endpoint call issued second by `create_revenue_goal`
(`now` is `Date.now()`, epoch milliseconds). -/
def revenuePaymentCall (p : RevenueGoalParams) (now : Nat) : ApiCall :=
  ⟨"https://datafa.st/api/v1/payments", "POST",
   some [("amount", JVal.n p.revenue_amount),
         ("currency", JVal.s p.currency),
         ("transaction_id", JVal.s ("goal_" ++ p.goal_name ++ "_" ++ toString now)),
         ("datafast_visitor_id", JVal.s p.datafast_visitor_id),
         ("renewal", JVal.b false),
         ("refunded", JVal.b false)]⟩

/-- The `create_revenue_goal` tool handler.  Both fetches sit inside one
`try` block: a goal-step failure (HTTP or thrown) ends the handler with an
error envelope before the payment fetch; a payment-step non-2xx is absorbed
into the success text, but a payment-step thrown fetch reaches the shared
`catch` and produces an error envelope. -/
def create_revenue_goal (p : RevenueGoalParams) (now : Nat)
    (goalUp : Upstream GoalResult) (payUp : Upstream PaymentResult) :
    Envelope × List ApiCall :=
  let goalCall := revenueGoalCall p
  match goalUp with
  | .httpError st stx em =>
      ({ text := goalErrorText st stx em, isError := true }, [goalCall])
  | .networkError m =>
      ({ text := "Network error: " ++ m, isError := true }, [goalCall])
  | .success gr =>
      let payCall := revenuePaymentCall p now
      match payUp with
      | .networkError m =>
          ({ text := "Network error: " ++ m, isError := true }, [goalCall, payCall])
      | .httpError _ _ _ =>
          ({ text := "✅ Revenue goal created successfully!\n🎯 Goal: " ++ gr.message
                     ++ "\n" ++ "\n⚠️ Goal created but revenue tracking failed" },
           [goalCall, payCall])
      | .success pr =>
          ({ text := "✅ Revenue goal created successfully!\n🎯 Goal: " ++ gr.message
                     ++ "\n" ++ "\n💰 Revenue tracked: " ++ pr.message },
           [goalCall, payCall])

/-- The activity part of `get_analytics_summary`'s report.  `fmtDate`
models `new Date(..).toLocaleDateString()`; the customer-age line is guarded
by number truthiness (`if (activity.timeSinceFirstVisit)`). -/
def summaryActivity (fmtDate : JNum → String) (a : Activity) : String :=
  "📈 Activity Summary:\n"
  ++ "   • Total visits: " ++ jsNumToString a.visitCount ++ "\n"
  ++ "   • Pageviews: " ++ jsNumToString a.pageViewCount ++ "\n"
  ++ "   • First visit: " ++ fmtDate a.firstVisitAt ++ "\n"
  ++ (if a.timeSinceFirstVisit.truthy then
        "   • Customer age: "
        ++ toString (jsRoundDiv a.timeSinceFirstVisit (1000 * 60 * 60 * 24)) ++ " days\n"
      else "")
  ++ (match a.completedCustomGoals with
      | some gs =>
        if gs.length > 0 then
          "   • Completed goals: " ++ toString gs.length ++ "\n"
        else ""
      | none => "")

/-- The prediction part of `get_analytics_summary`'s report (expected value
and confidence lines are guarded by number truthiness). -/
def summaryPrediction (p : Prediction) : String :=
  "\n🎯 Conversion Prediction:\n"
  ++ "   • Score: " ++ jsNumToString p.score ++ "/100 ("
  ++ (if p.score.geB ⟨50, 0⟩ then "High" else "Low") ++ " potential)\n"
  ++ (if p.expectedValue.truthy then
        "   • Expected value: $" ++ toFixed p.expectedValue 2 ++ "\n"
      else "")
  ++ (if p.confidence.truthy then
        "   • Confidence: " ++ toFixed (JNum.mul p.confidence ⟨100, 0⟩) 1 ++ "%\n"
      else "")

/-- The full success report of `get_analytics_summary`. -/
def summaryText (fmtDate : JNum → String) (include_prediction : Bool)
    (v : VisitorData) : String :=
  "📊 Quick Analytics for Visitor " ++ v.visitorId ++ "\n\n"
  ++ (match v.activity with
      | some a => summaryActivity fmtDate a
      | none => "")
  ++ (match v.prediction with
      | some p => if include_prediction then summaryPrediction p else ""
      | none => "")
  ++ (match v.identity with
      | some i =>
        (match i.params with
         | some pr => "\n🔗 Traffic Source: " ++ trafficSource pr ++ "\n"
         | none => "")
        ++ (if !i.city.isEmpty && !i.country.isEmpty then
              "\n🌍 Location: " ++ i.city ++ ", " ++ i.country ++ "\n"
            else "")
      | none => "")

/-- The `get_analytics_summary` tool handler (`include_prediction` is
schema-defaulted to `true`). -/
def get_analytics_summary (fmtDate : JNum → String) (id : String)
    (include_prediction : Bool) (up : Upstream VisitorResponse) :
    Envelope × List ApiCall :=
  let call := visitorCall id
  match up with
  | .success r =>
      if wellFormedB r then
        ({ text := summaryText fmtDate include_prediction
                     (r.data.getD ⟨"", none, none, none⟩) }, [call])
      else
        ({ text := "Unexpected response format from DataFast API" }, [call])
  | .httpError st stx em =>
      ({ text := errorLine st stx em, isError := true }, [call])
  | .networkError m =>
      ({ text := "Network error: " ++ m, isError := true }, [call])

end DF

namespace DFAlt

/-- `track_payment` parameters (alternative server).  No zod defaults here:
`renewal`/`refunded` stay absent when omitted. -/
structure TrackPaymentParams where
  visitorId : String
  amount : JNum
  currency : String
  transactionId : String
  email : Option String := none
  name : Option String := none
  customerId : Option String := none
  renewal : Option Bool := none
  refunded : Option Bool := none
deriving DecidableEq, Repr

/-- The outbound body of `track_payment`: every field is written into the
object literal, and `JSON.stringify` then drops the `undefined` ones (so an
omitted optional field is absent from the wire body, but a present empty
string is kept — unlike the main server's truthiness spreads). -/
def trackPaymentBody (p : TrackPaymentParams) : List (String × JVal) :=
  [("datafast_visitor_id", JVal.s p.visitorId),
   ("amount", JVal.n p.amount),
   ("currency", JVal.s p.currency),
   ("transaction_id", JVal.s p.transactionId)]
  ++ (match p.email with | some s => [("email", JVal.s s)] | none => [])
  ++ (match p.name with | some s => [("name", JVal.s s)] | none => [])
  ++ (match p.customerId with | some s => [("customer_id", JVal.s s)] | none => [])
  ++ (match p.renewal with | some b => [("renewal", JVal.b b)] | none => [])
  ++ (match p.refunded with | some b => [("refunded", JVal.b b)] | none => [])

/-- The `track_payment` tool handler.  There is no `try/catch`: a thrown
fetch propagates out of the handler (modelled as `Except.error`).  Note the
success text interpolates the raw `amount` with no fixed-decimal
formatting. -/
def track_payment (p : TrackPaymentParams) (up : Upstream DF.PaymentResult) :
    Except String (Envelope × List ApiCall) :=
  let call : ApiCall := ⟨"https://datafa.st/api/v1/payments", "POST", some (trackPaymentBody p)⟩
  match up with
  | .networkError m => .error m
  | .httpError st stx em =>
      .ok ({ text := "❌ **Payment Tracking Failed**\n" ++ errorLine st stx em
                     ++ "\n\n**Common issues:**\n- Invalid visitor ID\n- Duplicate transaction ID\n- Invalid currency code\n- Missing required fields",
             isError := true }, [call])
  | .success r =>
      .ok ({ text := "💰 **Payment Tracked Successfully!**\n\nTransaction ID: "
                     ++ r.transaction_id ++ "\nAmount: " ++ jsNumToString p.amount
                     ++ " " ++ p.currency ++ "\nMessage: " ++ r.message
                     ++ "\n\n📊 This revenue is now attributed to the visitor's traffic source in your DataFa.st dashboard." },
           [call])

/-- Identity block of the alternative server's visitor cast. -/
structure V1Identity where
  country : String
  region : String
  city : String
  browser : String
  device_type : String
  os : String
deriving DecidableEq, Repr

/-- Activity block of the alternative server's visitor cast (`first_visit`
and `last_visit` are interpolated as raw strings). -/
structure V1Activity where
  visit_count : JNum
  pageview_count : JNum
  first_visit : String
  last_visit : String
  current_url : String
  goals : List String
deriving DecidableEq, Repr

/-- Prediction block of the alternative server's visitor cast. -/
structure V1Prediction where
  conversion_score : JNum
  conversion_rate : JNum
  expected_revenue : JNum
  confidence : JNum
deriving DecidableEq, Repr

/-- The alternative server's visitor body.  The TypeScript cast declares
`prediction` non-optional, but the upstream API omits it for some visitors;
the handler dereferences it unconditionally, so an absent prediction is a
runtime `TypeError`. -/
structure V1Data where
  identity : V1Identity
  activity : V1Activity
  prediction : Option V1Prediction := none
deriving DecidableEq, Repr

/-- The prediction section plus the score-derived recommendation of the
alternative `get_visitor_data` (low below 30, high above 70, none
between). -/
def v1PredictionText (p : V1Prediction) : String :=
  "\n**🎯 Conversion Prediction:**\n"
  ++ "• Conversion Score: " ++ jsNumToString p.conversion_score ++ "/100\n"
  ++ "• Conversion Rate: " ++ toFixed (JNum.mul p.conversion_rate ⟨100, 0⟩) 1 ++ "%\n"
  ++ "• Expected Revenue: $" ++ toFixed p.expected_revenue 2 ++ "\n"
  ++ "• Confidence: " ++ toFixed (JNum.mul p.confidence ⟨100, 0⟩) 1 ++ "%\n\n"
  ++ (if p.conversion_score.ltB ⟨30, 0⟩ then
        "💡 **Recommendation:** Low conversion likelihood - consider showing lead magnets or special offers.\n"
      else if JNum.ltB ⟨70, 0⟩ p.conversion_score then
        "💡 **Recommendation:** High conversion potential - create urgency or showcase premium features.\n"
      else "")

/-- The alternative `get_visitor_data` tool handler.  No `try/catch`: a
thrown fetch or the `TypeError` from an absent prediction propagates
(`Except.error`). -/
def get_visitor_data (id : String) (up : Upstream V1Data) :
    Except String (Envelope × List ApiCall) :=
  let call : ApiCall := ⟨"https://datafa.st/api/v1/visitors/" ++ id, "GET", none⟩
  match up with
  | .networkError m => .error m
  | .httpError st stx em =>
      .ok ({ text := "❌ **Visitor Data Retrieval Failed**\n" ++ errorLine st stx em
                     ++ "\n\n**Common issues:**\n- Invalid visitor ID\n- Visitor not found\n- API key permissions",
             isError := true }, [call])
  | .success d =>
      match d.prediction with
      | none => .error "TypeError: Cannot read properties of undefined (reading 'conversion_score')"
      | some p =>
          .ok ({ text := "👤 **Visitor Analytics Data**\n\n"
                         ++ "**🌍 Identity & Location:**\n"
                         ++ "• Location: " ++ d.identity.city ++ ", " ++ d.identity.region
                         ++ ", " ++ d.identity.country ++ "\n"
                         ++ "• Browser: " ++ d.identity.browser ++ "\n"
                         ++ "• Device: " ++ d.identity.device_type ++ "\n"
                         ++ "• OS: " ++ d.identity.os ++ "\n\n"
                         ++ "**📊 Activity:**\n"
                         ++ "• Visits: " ++ jsNumToString d.activity.visit_count ++ "\n"
                         ++ "• Pageviews: " ++ jsNumToString d.activity.pageview_count ++ "\n"
                         ++ "• First visit: " ++ d.activity.first_visit ++ "\n"
                         ++ "• Last visit: " ++ d.activity.last_visit ++ "\n"
                         ++ "• Current URL: " ++ d.activity.current_url ++ "\n"
                         ++ (if d.activity.goals.length > 0 then
                               "• Completed goals: "
                               ++ String.intercalate ", " d.activity.goals ++ "\n"
                             else "")
                         ++ v1PredictionText p },
               [call])

end DFAlt

theorem listHasPfx_refl (p : List Char) : listHasPfx p p = true := by
  induction p with
  | nil => rfl
  | cons c cs ih => simp [listHasPfx, ih]

theorem listHasSub_suffix (p a : List Char) : listHasSub p (a ++ p) = true := by
  induction a with
  | nil =>
    cases p with
    | nil => rfl
    | cons c cs => simp [listHasSub, listHasPfx_refl]
  | cons c cs ih => simp [listHasSub, ih]

/-- A string of the form `a ++ pat` contains `pat`. -/
theorem strHasSub_append_right (a pat : String) : strHasSub (a ++ pat) pat = true :=
  listHasSub_suffix pat.data a.data

theorem listHasPfx_extend (p x s : List Char) (h : listHasPfx p x = true) :
    listHasPfx p (x ++ s) = true := by
  induction p generalizing x with
  | nil => rfl
  | cons c cs ih =>
    cases x with
    | nil => simp [listHasPfx] at h
    | cons d ds =>
      simp only [listHasPfx, Bool.and_eq_true, beq_iff_eq] at h
      simp [listHasPfx, h.1, ih ds h.2]

theorem listHasSub_app_l (p t s : List Char) (h : listHasSub p t = true) :
    listHasSub p (t ++ s) = true := by
  induction t with
  | nil =>
    cases p with
    | nil => cases s <;> simp [listHasSub, listHasPfx]
    | cons c cs => simp [listHasSub, listHasPfx] at h
  | cons d ds ih =>
    simp only [listHasSub, Bool.or_eq_true] at h
    rcases h with h | h
    · simp only [List.cons_append, listHasSub, Bool.or_eq_true]
      exact Or.inl (listHasPfx_extend p (d :: ds) s h)
    · simp [listHasSub, ih h]

theorem listHasSub_app_r (p t s : List Char) (h : listHasSub p t = true) :
    listHasSub p (s ++ t) = true := by
  induction s with
  | nil => exact h
  | cons c cs ih => simp [listHasSub, ih]

/-- Containment is preserved by appending on the right. -/
theorem strHasSub_app_l (s t pat : String) (h : strHasSub s pat = true) :
    strHasSub (s ++ t) pat = true :=
  listHasSub_app_l pat.data s.data t.data h

/-- Containment is preserved by appending on the left. -/
theorem strHasSub_app_r (s t pat : String) (h : strHasSub t pat = true) :
    strHasSub (s ++ t) pat = true :=
  listHasSub_app_r pat.data t.data s.data h

/-- Every string contains itself. -/
theorem strHasSub_self (pat : String) : strHasSub pat pat = true := by
  cases h : pat.data with
  | nil => simp [strHasSub, h, listHasSub, listHasPfx]
  | cons c cs => simp [strHasSub, h, listHasSub, listHasPfx_refl]

/-- `okEnv` projects the envelope out of a handler that may throw. -/
def okEnv : Except String (Envelope × List ApiCall) → Option Envelope
  | .ok ec => some ec.1
  | .error _ => none

theorem bodyHas_append (l₁ l₂ : List (String × JVal)) (k : String) :
    bodyHas (l₁ ++ l₂) k = (bodyHas l₁ k || bodyHas l₂ k) := by
  simp [bodyHas, List.any_append]

theorem bodyHas_cons (k' : String) (v : JVal) (t : List (String × JVal)) (k : String) :
    bodyHas ((k', v) :: t) k = ((k' == k) || bodyHas t k) := by
  simp [bodyHas]

theorem bodyGet_cons (k' : String) (v : JVal) (t : List (String × JVal)) (k : String) :
    bodyGet ((k', v) :: t) k = if (k' == k) then some v else bodyGet t k := by
  by_cases h : (k' == k) <;> simp [bodyGet, List.find?_cons, h]

theorem bodyGet_append (l₁ l₂ : List (String × JVal)) (k : String) :
    bodyGet (l₁ ++ l₂) k =
      (match bodyGet l₁ k with
       | some v => some v
       | none => bodyGet l₂ k) := by
  induction l₁ with
  | nil => simp [bodyGet]
  | cons a t ih =>
    obtain ⟨k', v⟩ := a
    by_cases h : (k' == k) <;> simp [bodyGet_cons, h, ih, List.cons_append]

theorem bodyHas_optStrField_self (k : String) (o : Option String) :
    bodyHas (DF.optStrField k o) k = truthyStr o := by
  cases o with
  | none => rfl
  | some s =>
    by_cases h : s.isEmpty <;> simp [DF.optStrField, bodyHas, truthyStr, h]

theorem bodyHas_optStrField_ne (k' k : String) (o : Option String)
    (h : (k' == k) = false) :
    bodyHas (DF.optStrField k' o) k = false := by
  cases o with
  | none => rfl
  | some s =>
    by_cases h2 : s.isEmpty <;> simp [DF.optStrField, bodyHas, h2, h]

theorem bodyGet_optStrField_ne (k' k : String) (o : Option String)
    (h : (k' == k) = false) :
    bodyGet (DF.optStrField k' o) k = none := by
  cases o with
  | none => rfl
  | some s =>
    by_cases h2 : s.isEmpty <;> simp [DF.optStrField, bodyGet, List.find?, h2, h]

theorem isNull_s (v : String) : (JVal.s v).isNull = false := rfl

theorem isNull_n (v : JNum) : (JVal.n v).isNull = false := rfl

theorem isNull_b (v : Bool) : (JVal.b v).isNull = false := rfl

theorem truthyStr_empty : truthyStr (some "") = false := by decide

theorem optStrField_no_null (k : String) (o : Option String) :
    (DF.optStrField k o).all (fun kv => !kv.2.isNull) = true := by
  cases o with
  | none => rfl
  | some s =>
    by_cases h : s.isEmpty <;> simp [DF.optStrField, h, JVal.isNull]

theorem filter_length_split {α : Type} (p : α → Bool) (l : List α) :
    (l.filter p).length + (l.filter (fun a => !p a)).length = l.length := by
  induction l with
  | nil => rfl
  | cons a t ih =>
    cases h : p a <;> simp [List.filter_cons, h] <;> omega

theorem batchItemResult_success (g : DF.GoalParams) (up : Upstream DF.GoalResult) :
    (DF.batchItemResult g up).success = up.isSuccessB := by
  cases up <;> rfl

theorem batch_filter_counts (items : List (DF.GoalParams × Upstream DF.GoalResult)) :
    ((items.map (fun gi => DF.batchItemResult gi.1 gi.2)).filter
        (fun r => r.success)).length
      = (items.filter (fun gi => gi.2.isSuccessB)).length
    ∧ ((items.map (fun gi => DF.batchItemResult gi.1 gi.2)).filter
        (fun r => !r.success)).length
      = (items.filter (fun gi => !gi.2.isSuccessB)).length := by
  induction items with
  | nil => exact ⟨rfl, rfl⟩
  | cons a t ih =>
    cases h : a.2.isSuccessB <;>
      simp [List.filter_cons, batchItemResult_success, h, ih.1, ih.2]

/-- A sample `create_revenue_goal` parameter record used by concrete
instances. -/
def rg0 : DF.RevenueGoalParams :=
  { datafast_visitor_id := "v1", goal_name := "signup", revenue_amount := ⟨2999, 2⟩ }

/-- C1 counterexample: with a successful goals call and a payments call that
fails at the network level, the payments call is made (two calls in the log)
yet the envelope IS marked as an error — refuting "regardless of that
payment call's outcome the envelope is not marked as an error". -/
theorem create_revenue_goal_payment_network_error_counterexample :
    (DF.create_revenue_goal rg0 1700000000000
        (.success { message := "Goal created" })
        (.networkError "fetch failed")).1.isError = true
    ∧ (DF.create_revenue_goal rg0 1700000000000
        (.success { message := "Goal created" })
        (.networkError "fetch failed")).2.length = 2
    ∧ (DF.create_revenue_goal rg0 1700000000000
        (.success { message := "Goal created" })
        (.networkError "fetch failed")).1.text = "Network error: fetch failed" :=
  ⟨rfl, rfl, rfl⟩

/-- C1 (amended): if the goals call fails, no payments call is made and the
envelope has `isError = true`; if the goals call succeeds, a payments call is
made, and when that call yields an HTTP response (2xx or not) the envelope is
not an error and its text carries the goal-success marker plus a marker for
whether revenue tracking succeeded or failed — but a payments call that fails
at the network level reaches the shared catch and yields an error
envelope. -/
theorem create_revenue_goal_failure_policy (p : DF.RevenueGoalParams) (now : Nat)
    (gUp : Upstream DF.GoalResult) (pUp : Upstream DF.PaymentResult) :
    (gUp.isSuccessB = false →
        (DF.create_revenue_goal p now gUp pUp).1.isError = true
        ∧ (DF.create_revenue_goal p now gUp pUp).2 = [DF.revenueGoalCall p])
    ∧ (∀ gr : DF.GoalResult, gUp = .success gr →
        (DF.create_revenue_goal p now gUp pUp).2
            = [DF.revenueGoalCall p, DF.revenuePaymentCall p now]
        ∧ (∀ pr : DF.PaymentResult, pUp = .success pr →
            (DF.create_revenue_goal p now gUp pUp).1.isError = false
            ∧ strHasSub (DF.create_revenue_goal p now gUp pUp).1.text
                "✅ Revenue goal created successfully!" = true
            ∧ strHasSub (DF.create_revenue_goal p now gUp pUp).1.text
                "💰 Revenue tracked: " = true)
        ∧ (∀ st stx em, pUp = .httpError st stx em →
            (DF.create_revenue_goal p now gUp pUp).1.isError = false
            ∧ strHasSub (DF.create_revenue_goal p now gUp pUp).1.text
                "✅ Revenue goal created successfully!" = true
            ∧ strHasSub (DF.create_revenue_goal p now gUp pUp).1.text
                "⚠️ Goal created but revenue tracking failed" = true)
        ∧ (∀ m, pUp = .networkError m →
            (DF.create_revenue_goal p now gUp pUp).1.isError = true
            ∧ (DF.create_revenue_goal p now gUp pUp).1.text
                = "Network error: " ++ m)) := by
  constructor
  · intro h
    cases gUp with
    | success gr => simp [Upstream.isSuccessB] at h
    | httpError st stx em => exact ⟨rfl, rfl⟩
    | networkError m => exact ⟨rfl, rfl⟩
  · intro gr hg
    subst hg
    refine ⟨?_, ?_, ?_, ?_⟩
    · cases pUp <;> rfl
    · intro pr hp
      subst hp
      refine ⟨rfl, ?_, ?_⟩
      · apply strHasSub_app_l
        apply strHasSub_app_l
        apply strHasSub_app_l
        apply strHasSub_app_l
        decide
      · apply strHasSub_app_l
        apply strHasSub_app_r
        decide
    · intro st stx em hp
      subst hp
      refine ⟨rfl, ?_, ?_⟩
      · apply strHasSub_app_l
        apply strHasSub_app_l
        apply strHasSub_app_l
        decide
      · apply strHasSub_app_r
        decide
    · intro m hp
      subst hp
      exact ⟨rfl, rfl⟩

/-- Witness for the amended C1 theorem at concrete inputs. -/
theorem create_revenue_goal_failure_policy_witness :
    ((DF.create_revenue_goal rg0 1 (.httpError 400 "Bad Request" none)
        (.success ⟨"m", "t"⟩)).1.isError = true
      ∧ (DF.create_revenue_goal rg0 1 (.httpError 400 "Bad Request" none)
          (.success ⟨"m", "t"⟩)).2 = [DF.revenueGoalCall rg0])
    ∧ strHasSub (DF.create_revenue_goal rg0 1 (.success { message := "g" })
        (.httpError 500 "Internal Server Error" none)).1.text
        "⚠️ Goal created but revenue tracking failed" = true :=
  ⟨(create_revenue_goal_failure_policy rg0 1
      (.httpError 400 "Bad Request" none) (.success ⟨"m", "t"⟩)).1 (by decide),
   (((create_revenue_goal_failure_policy rg0 1 (.success { message := "g" })
      (.httpError 500 "Internal Server Error" none)).2
      { message := "g" } rfl).2.2.1 500 "Internal Server Error" none rfl).2.2⟩

/-- C6: under a successful goals call, `create_revenue_goal` issues exactly
the goals call with body
`\x7b datafast_visitor_id, name: goal_name, metadata: \x7b revenue_amount,
currency, ...callerMetadata \x7d \x7d` followed by a payments call whose
transaction id is `goal_<goalName>_<now>`, with the stated amount and
currency and `renewal = false`, `refunded = false`. -/
theorem create_revenue_goal_outbound_bodies (p : DF.RevenueGoalParams) (now : Nat)
    (gr : DF.GoalResult) (pUp : Upstream DF.PaymentResult) :
    (DF.create_revenue_goal p now (.success gr) pUp).2
        = [DF.revenueGoalCall p, DF.revenuePaymentCall p now]
    ∧ (DF.revenueGoalCall p).body
        = some [("datafast_visitor_id", JVal.s p.datafast_visitor_id),
                ("name", JVal.s p.goal_name),
                ("metadata", JVal.record (jsMerge
                    [("revenue_amount", jsNumToString p.revenue_amount),
                     ("currency", p.currency)]
                    (p.metadata.getD [])))]
    ∧ (DF.revenueGoalCall p).url = "https://datafa.st/api/v1/goals"
    ∧ (DF.revenuePaymentCall p now).url = "https://datafa.st/api/v1/payments"
    ∧ bodyGet ((DF.revenuePaymentCall p now).body.getD []) "transaction_id"
        = some (JVal.s ("goal_" ++ p.goal_name ++ "_" ++ toString now))
    ∧ bodyGet ((DF.revenuePaymentCall p now).body.getD []) "amount"
        = some (JVal.n p.revenue_amount)
    ∧ bodyGet ((DF.revenuePaymentCall p now).body.getD []) "currency"
        = some (JVal.s p.currency)
    ∧ bodyGet ((DF.revenuePaymentCall p now).body.getD []) "datafast_visitor_id"
        = some (JVal.s p.datafast_visitor_id)
    ∧ bodyGet ((DF.revenuePaymentCall p now).body.getD []) "renewal"
        = some (JVal.b false)
    ∧ bodyGet ((DF.revenuePaymentCall p now).body.getD []) "refunded"
        = some (JVal.b false) := by
  refine ⟨?_, rfl, rfl, rfl, rfl, rfl, rfl, rfl, rfl, rfl⟩
  cases pUp <;> rfl

/-- C2: `batch_create_goals` issues one goals-endpoint call per input item,
in input order (no failure short-circuits the rest); the envelope is never
an error, and the summary reports exactly `n - k` successful and `k` failed
(where `k` counts the failed outcomes) followed by one result line per item
in input order. -/
theorem batch_create_goals_report
    (items : List (DF.GoalParams × Upstream DF.GoalResult)) :
    (DF.batch_create_goals items).1.isError = false
    ∧ (DF.batch_create_goals items).2
        = items.map (fun gi =>
            ⟨"https://datafa.st/api/v1/goals", "POST", some (DF.goalBody gi.1)⟩)
    ∧ (DF.batch_create_goals items).2.length = items.length
    ∧ (DF.batch_create_goals items).1.text
        = "✅ Batch goal creation completed!\n"
          ++ "   • Successful: "
          ++ toString (items.length
                - (items.filter (fun gi => !gi.2.isSuccessB)).length)
          ++ "\n"
          ++ "   • Failed: "
          ++ toString ((items.filter (fun gi => !gi.2.isSuccessB)).length)
          ++ "\n\n"
          ++ "📋 Results:\n"
          ++ String.join ((items.map (fun gi =>
                DF.batchItemResult gi.1 gi.2)).map DF.batchLine) := by
  have hc := batch_filter_counts items
  have hsplit := filter_length_split (fun gi => gi.2.isSuccessB) items
  have hs : ((items.map (fun gi => DF.batchItemResult gi.1 gi.2)).filter
      (fun r => r.success)).length
      = items.length - (items.filter (fun gi => !gi.2.isSuccessB)).length := by
    omega
  have hf : ((items.map (fun gi => DF.batchItemResult gi.1 gi.2)).filter
      (fun r => !r.success)).length
      = (items.filter (fun gi => !gi.2.isSuccessB)).length := hc.2
  refine ⟨rfl, rfl, ?_, ?_⟩
  · simp [DF.batch_create_goals]
  · simp only [DF.batch_create_goals, hs, hf]

/-- C3 counterexample: `validate_visitor` on a `Success` outcome (2xx with a
parseable JSON body) whose body is not `status = "success"` with data
present returns an envelope with `isError = true` — refuting "a Success
ApiOutcome yields an envelope with isError=false" for the four single-call
tools. -/
theorem validate_visitor_malformed_success_counterexample :
    Upstream.isSuccessB
        (Upstream.success { status := "error" } : Upstream DF.VisitorResponse) = true
    ∧ (DF.validate_visitor "v1"
        (.success { status := "error" })).1.isError = true
    ∧ (DF.validate_visitor "v1" (.success { status := "error" })).1.text
        = "❌ Visitor ID \"v1\" returned unexpected response format." :=
  ⟨rfl, rfl, rfl⟩

/-- C3 (amended): for `create_payment` and `create_goal` every `Success`
outcome yields `isError = false` with the promised fields rendered; for
`get_visitor_data` a well-formed `Success` body yields `isError = false`
with the visitor id rendered; `validate_visitor` yields `isError = false`
only for a well-formed `Success` body and `isError = true` for a malformed
one; every `HttpError`/`NetworkError` yields `isError = true` for all four
tools. -/
theorem single_call_tools_envelope_policy :
    (∀ (p : DF.PaymentParams) (r : DF.PaymentResult),
        (DF.create_payment p (.success r)).1.isError = false
        ∧ strHasSub (DF.create_payment p (.success r)).1.text r.transaction_id = true
        ∧ strHasSub (DF.create_payment p (.success r)).1.text r.message = true)
    ∧ (∀ (g : DF.GoalParams) (r : DF.GoalResult),
        (DF.create_goal g (.success r)).1.isError = false
        ∧ strHasSub (DF.create_goal g (.success r)).1.text r.message = true
        ∧ strHasSub (DF.create_goal g (.success r)).1.text (jsOr r.event_id "N/A") = true)
    ∧ (∀ (fmt : JNum → String) (id : String) (d : DF.VisitorData),
        (DF.get_visitor_data fmt id (.success ⟨"success", some d⟩)).1.isError = false
        ∧ strHasSub (DF.get_visitor_data fmt id
            (.success ⟨"success", some d⟩)).1.text d.visitorId = true)
    ∧ (∀ (id : String) (d : DF.VisitorData),
        (DF.validate_visitor id (.success ⟨"success", some d⟩)).1
          = ⟨"✅ Visitor ID \"" ++ id ++ "\" is valid and has data available.", false⟩)
    ∧ (∀ (id : String) (r : DF.VisitorResponse), DF.wellFormedB r = false →
        (DF.validate_visitor id (.success r)).1.isError = true)
    ∧ (∀ (p : DF.PaymentParams) (st : Nat) (stx : String) (em : Option String)
          (m : String),
        (DF.create_payment p (.httpError st stx em)).1.isError = true
        ∧ (DF.create_payment p (.networkError m)).1.isError = true)
    ∧ (∀ (g : DF.GoalParams) (st : Nat) (stx : String) (em : Option String)
          (m : String),
        (DF.create_goal g (.httpError st stx em)).1.isError = true
        ∧ (DF.create_goal g (.networkError m)).1.isError = true)
    ∧ (∀ (fmt : JNum → String) (id : String) (st : Nat) (stx : String)
          (em : Option String) (m : String),
        (DF.get_visitor_data fmt id (.httpError st stx em)).1.isError = true
        ∧ (DF.get_visitor_data fmt id (.networkError m)).1.isError = true
        ∧ (DF.validate_visitor id (.httpError st stx em)).1.isError = true
        ∧ (DF.validate_visitor id (.networkError m)).1.isError = true) := by
  refine ⟨?_, ?_, ?_, ?_, ?_, ?_, ?_, ?_⟩
  · intro p r
    refine ⟨rfl, ?_, ?_⟩
    · apply strHasSub_app_r
      exact strHasSub_self _
    · apply strHasSub_app_l
      apply strHasSub_app_l
      apply strHasSub_app_r
      exact strHasSub_self _
  · intro g r
    refine ⟨rfl, ?_, ?_⟩
    · apply strHasSub_app_l
      apply strHasSub_app_l
      apply strHasSub_app_r
      exact strHasSub_self _
    · apply strHasSub_app_r
      exact strHasSub_self _
  · intro fmt id d
    refine ⟨rfl, ?_⟩
    apply strHasSub_app_l
    apply strHasSub_app_l
    apply strHasSub_app_l
    apply strHasSub_app_l
    apply strHasSub_app_r
    exact strHasSub_self _
  · intro id d
    rfl
  · intro id r h
    simp [DF.validate_visitor, h]
  · intro p st stx em m
    exact ⟨rfl, rfl⟩
  · intro g st stx em m
    exact ⟨rfl, rfl⟩
  · intro fmt id st stx em m
    exact ⟨rfl, rfl, rfl, rfl⟩

/-- Witness for the amended C3 theorem at concrete inputs. -/
theorem single_call_tools_envelope_policy_witness :
    (DF.create_payment (DF.validatePayment
        { amount := ⟨2999, 2⟩, currency := "USD", transaction_id := "t1",
          datafast_visitor_id := "v1" })
        (.success ⟨"Payment recorded", "t1"⟩)).1.isError = false
    ∧ (DF.validate_visitor "v9" (.success { status := "error" })).1.isError = true :=
  ⟨(single_call_tools_envelope_policy.1 _ ⟨"Payment recorded", "t1"⟩).1,
   single_call_tools_envelope_policy.2.2.2.2.1 "v9" { status := "error" } (by decide)⟩

/-- C9: on a 2xx response whose body is not `status = "success"` with a data
object, both `get_visitor_data` and `get_analytics_summary` return the text
"Unexpected response format from DataFast API" with no error flag set. -/
theorem unexpected_format_envelope (fmt : JNum → String) (id : String)
    (inc : Bool) (r : DF.VisitorResponse) (h : DF.wellFormedB r = false) :
    (DF.get_visitor_data fmt id (.success r)).1
        = ⟨"Unexpected response format from DataFast API", false⟩
    ∧ (DF.get_analytics_summary fmt id inc (.success r)).1
        = ⟨"Unexpected response format from DataFast API", false⟩ := by
  constructor <;> simp [DF.get_visitor_data, DF.get_analytics_summary, h]

/-- Witness for the C9 theorem at a concrete malformed body. -/
theorem unexpected_format_envelope_witness :
    (DF.get_visitor_data (fun _ => "") "v1" (.success { status := "ok" })).1
        = ⟨"Unexpected response format from DataFast API", false⟩
    ∧ (DF.get_analytics_summary (fun _ => "") "v1" true
        (.success { status := "ok" })).1
        = ⟨"Unexpected response format from DataFast API", false⟩ :=
  unexpected_format_envelope (fun _ => "") "v1" true { status := "ok" } (by decide)

/-- A sample identity block for the alternative server's visitor stub. -/
def v1id0 : DFAlt.V1Identity :=
  ⟨"United States", "CA", "San Francisco", "Chrome", "desktop", "macOS"⟩

/-- A sample activity block for the alternative server's visitor stub. -/
def v1act0 : DFAlt.V1Activity :=
  ⟨⟨3, 0⟩, ⟨10, 0⟩, "2024-01-01", "2024-02-01", "https://example.com", []⟩

/-- A visitor stub for the alternative server with the given score. -/
def v1stub (score : JNum) : DFAlt.V1Data :=
  ⟨v1id0, v1act0, some ⟨score, ⟨1, 1⟩, ⟨5, 0⟩, ⟨8, 1⟩⟩⟩

/-- C4 counterexample: the main server's `get_visitor_data`, on a successful
response whose prediction score is 20 (< 30), renders no recommendation
messaging at all — refuting "when score < 30 the rendered text contains
low-conversion recommendation messaging". -/
theorem get_visitor_data_low_score_no_recommendation_counterexample :
    JNum.ltB ⟨20, 0⟩ ⟨30, 0⟩ = true
    ∧ strHasSub (DF.get_visitor_data (fun _ => "") "v1"
        (.success ⟨"success", some ⟨"v1", none, none,
            some ⟨⟨20, 0⟩, ⟨1, 1⟩, ⟨5, 0⟩, ⟨8, 1⟩⟩⟩⟩)).1.text
        "Recommendation" = false
    ∧ strHasSub (DF.get_visitor_data (fun _ => "") "v1"
        (.success ⟨"success", some ⟨"v1", none, none,
            some ⟨⟨20, 0⟩, ⟨1, 1⟩, ⟨5, 0⟩, ⟨8, 1⟩⟩⟩⟩)).1.text
        "Low conversion" = false
    ∧ strHasSub (DF.get_visitor_data (fun _ => "") "v1"
        (.success ⟨"success", some ⟨"v1", none, none,
            some ⟨⟨20, 0⟩, ⟨1, 1⟩, ⟨5, 0⟩, ⟨8, 1⟩⟩⟩⟩)).1.text
        "low conversion" = false
    ∧ (DF.get_visitor_data (fun _ => "") "v1"
        (.success ⟨"success", some ⟨"v1", none, none,
            some ⟨⟨20, 0⟩, ⟨1, 1⟩, ⟨5, 0⟩, ⟨8, 1⟩⟩⟩⟩)).1.text
        = "📊 Visitor Data for ID: v1\n\n\n🎯 Prediction:\n   • Conversion score: 20/100\n   • Conversion rate: 10.00%\n   • Expected value: $5.00\n   • Confidence: 80.0%\n" := by
  refine ⟨?_, ?_, ?_, ?_, ?_⟩ <;> decide

set_option maxHeartbeats 1600000 in
set_option maxRecDepth 8192 in
/-- C4 (amended): the main server's `get_visitor_data` never renders a
score-based recommendation — it handles an absent prediction gracefully with
a "Not available" line and no error; the alternative server's
`get_visitor_data` renders the low/high-conversion recommendation for
score < 30 / score > 70 (none in between), but it throws a `TypeError` when
the prediction block is absent. -/
theorem get_visitor_data_prediction_rendering :
    (∀ (fmt : JNum → String) (id : String) (d : DF.VisitorData),
        d.prediction = none →
        (DF.get_visitor_data fmt id (.success ⟨"success", some d⟩)).1.isError = false
        ∧ strHasSub (DF.get_visitor_data fmt id
            (.success ⟨"success", some d⟩)).1.text
            "🎯 Prediction: Not available" = true)
    ∧ (∀ (id : String) (d : DFAlt.V1Data) (p : DFAlt.V1Prediction),
        d.prediction = some p → JNum.ltB p.conversion_score ⟨30, 0⟩ = true →
        (okEnv (DFAlt.get_visitor_data id (.success d))).map
            (fun e => strHasSub e.text "Low conversion likelihood") = some true)
    ∧ (∀ (id : String) (d : DFAlt.V1Data) (p : DFAlt.V1Prediction),
        d.prediction = some p → JNum.ltB ⟨70, 0⟩ p.conversion_score = true →
        (okEnv (DFAlt.get_visitor_data id (.success d))).map
            (fun e => strHasSub e.text "High conversion potential") = some true)
    ∧ (∀ (id : String) (d : DFAlt.V1Data), d.prediction = none →
        DFAlt.get_visitor_data id (.success d)
          = .error "TypeError: Cannot read properties of undefined (reading 'conversion_score')")
    ∧ strHasSub (((okEnv (DFAlt.get_visitor_data "v1"
        (.success (v1stub ⟨50, 0⟩)))).getD ⟨"", false⟩).text) "Recommendation" = false := by
  refine ⟨?_, ?_, ?_, ?_, ?_⟩
  · intro fmt id d hp
    obtain ⟨vid, ident, act, pred⟩ := d
    simp only at hp
    subst hp
    refine ⟨rfl, ?_⟩
    exact strHasSub_app_r _ (DF.predictionSection none) _ (by decide)
  · intro id d p hp hlt
    obtain ⟨ident, act, pred⟩ := d
    simp only at hp
    subst hp
    have h : strHasSub (DFAlt.v1PredictionText p) "Low conversion likelihood" = true := by
      simp only [DFAlt.v1PredictionText, hlt, if_true]
      apply strHasSub_app_r
      decide
    exact congrArg some (strHasSub_app_r _ (DFAlt.v1PredictionText p) _ h)
  · intro id d p hp hgt
    obtain ⟨ident, act, pred⟩ := d
    simp only at hp
    subst hp
    have hnot : JNum.ltB p.conversion_score ⟨30, 0⟩ = false := by
      simp only [JNum.ltB, decide_eq_true_eq] at hgt
      simp only [JNum.ltB, decide_eq_false_iff_not]
      have ht : (0 : Int) ≤ ((10 ^ p.conversion_score.exp : Nat) : Int) :=
        Int.natCast_nonneg _
      omega
    have h : strHasSub (DFAlt.v1PredictionText p) "High conversion potential" = true := by
      simp only [DFAlt.v1PredictionText, hnot, hgt, if_true, Bool.false_eq_true,
        if_false]
      apply strHasSub_app_r
      decide
    exact congrArg some (strHasSub_app_r _ (DFAlt.v1PredictionText p) _ h)
  · intro id d hp
    obtain ⟨ident, act, pred⟩ := d
    simp only at hp
    subst hp
    rfl
  · decide

set_option maxHeartbeats 1600000 in
set_option maxRecDepth 8192 in
/-- Witness for the amended C4 theorem at concrete stubs. -/
theorem get_visitor_data_prediction_rendering_witness :
    strHasSub (DF.get_visitor_data (fun _ => "") "v1"
        (.success ⟨"success", some ⟨"v1", none, none, none⟩⟩)).1.text
        "🎯 Prediction: Not available" = true
    ∧ (okEnv (DFAlt.get_visitor_data "v1" (.success (v1stub ⟨20, 0⟩)))).map
        (fun e => strHasSub e.text "Low conversion likelihood") = some true
    ∧ (okEnv (DFAlt.get_visitor_data "v1" (.success (v1stub ⟨85, 0⟩)))).map
        (fun e => strHasSub e.text "High conversion potential") = some true
    ∧ DFAlt.get_visitor_data "v1" (.success ⟨v1id0, v1act0, none⟩)
        = .error "TypeError: Cannot read properties of undefined (reading 'conversion_score')" :=
  ⟨(get_visitor_data_prediction_rendering.1 (fun _ => "") "v1"
      ⟨"v1", none, none, none⟩ rfl).2,
   get_visitor_data_prediction_rendering.2.1 "v1" (v1stub ⟨20, 0⟩) _ rfl (by decide),
   get_visitor_data_prediction_rendering.2.2.1 "v1" (v1stub ⟨85, 0⟩) _ rfl (by decide),
   get_visitor_data_prediction_rendering.2.2.2.1 "v1" ⟨v1id0, v1act0, none⟩ rfl⟩

/-- C5 counterexample: a `create_payment` call in which the caller omits
`renewal` and `refunded` still produces an outbound body containing both
keys (schema-defaulted to `false`) — refuting "the outbound body contains
... exactly those optional fields the caller supplied". -/
theorem create_payment_omitted_renewal_present_counterexample :
    ({ amount := ⟨2999, 2⟩, currency := "USD", transaction_id := "tx1",
       datafast_visitor_id := "v1" } : DF.PaymentInput).renewal = none
    ∧ bodyHas (DF.paymentBody (DF.validatePayment
        { amount := ⟨2999, 2⟩, currency := "USD", transaction_id := "tx1",
          datafast_visitor_id := "v1" })) "renewal" = true
    ∧ bodyGet (DF.paymentBody (DF.validatePayment
        { amount := ⟨2999, 2⟩, currency := "USD", transaction_id := "tx1",
          datafast_visitor_id := "v1" })) "renewal" = some (JVal.b false)
    ∧ bodyHas (DF.paymentBody (DF.validatePayment
        { amount := ⟨2999, 2⟩, currency := "USD", transaction_id := "tx1",
          datafast_visitor_id := "v1" })) "refunded" = true := by
  refine ⟨rfl, ?_, ?_, ?_⟩ <;> decide

/-- C5 (amended): the outbound `create_payment` body always contains the
four required fields; each optional string field appears exactly when the
caller supplied a non-empty value (truthiness, so a supplied empty string is
also omitted); `renewal` and `refunded` are always present, defaulted to
`false` when omitted; and no field is ever sent with a JSON `null` value. -/
theorem create_payment_body_fields (i : DF.PaymentInput) :
    bodyHas (DF.paymentBody (DF.validatePayment i)) "amount" = true
    ∧ bodyHas (DF.paymentBody (DF.validatePayment i)) "currency" = true
    ∧ bodyHas (DF.paymentBody (DF.validatePayment i)) "transaction_id" = true
    ∧ bodyHas (DF.paymentBody (DF.validatePayment i)) "datafast_visitor_id" = true
    ∧ bodyHas (DF.paymentBody (DF.validatePayment i)) "email" = truthyStr i.email
    ∧ bodyHas (DF.paymentBody (DF.validatePayment i)) "name" = truthyStr i.name
    ∧ bodyHas (DF.paymentBody (DF.validatePayment i)) "customer_id"
        = truthyStr i.customer_id
    ∧ bodyHas (DF.paymentBody (DF.validatePayment i)) "timestamp"
        = truthyStr i.timestamp
    ∧ bodyGet (DF.paymentBody (DF.validatePayment i)) "renewal"
        = some (JVal.b (i.renewal.getD false))
    ∧ bodyGet (DF.paymentBody (DF.validatePayment i)) "refunded"
        = some (JVal.b (i.refunded.getD false))
    ∧ (DF.paymentBody (DF.validatePayment i)).all (fun kv => !kv.2.isNull) = true := by
  refine ⟨?_, ?_, ?_, ?_, ?_, ?_, ?_, ?_, ?_, ?_, ?_⟩
  case refine_11 =>
    simp only [DF.paymentBody, DF.validatePayment, List.all_append,
      List.all_cons, List.all_nil, isNull_s, isNull_n, isNull_b,
      optStrField_no_null, Bool.not_false, Bool.and_self, Bool.and_true,
      Bool.true_and]
  all_goals
    simp [DF.paymentBody, DF.validatePayment, bodyHas_append, bodyHas_cons,
      bodyGet_append, bodyGet_cons, bodyHas_optStrField_self,
      bodyHas_optStrField_ne, bodyGet_optStrField_ne]

/-- C10: inclusion of `email` / `name` / `customer_id` / `timestamp` in the
`create_payment` body is decided by truthiness (a supplied empty string is
omitted), while `renewal` and `refunded` are always present, schema-defaulted
to `false` when the caller omits them. -/
theorem create_payment_truthiness_and_defaults (i : DF.PaymentInput) :
    bodyHas (DF.paymentBody (DF.validatePayment
        { i with email := some "" })) "email" = false
    ∧ bodyHas (DF.paymentBody (DF.validatePayment
        { i with name := some "" })) "name" = false
    ∧ bodyHas (DF.paymentBody (DF.validatePayment
        { i with customer_id := some "" })) "customer_id" = false
    ∧ bodyHas (DF.paymentBody (DF.validatePayment
        { i with timestamp := some "" })) "timestamp" = false
    ∧ bodyHas (DF.paymentBody (DF.validatePayment i)) "email" = truthyStr i.email
    ∧ bodyGet (DF.paymentBody (DF.validatePayment
        { i with renewal := none })) "renewal" = some (JVal.b false)
    ∧ bodyGet (DF.paymentBody (DF.validatePayment
        { i with refunded := none })) "refunded" = some (JVal.b false)
    ∧ bodyHas (DF.paymentBody (DF.validatePayment i)) "renewal" = true
    ∧ bodyHas (DF.paymentBody (DF.validatePayment i)) "refunded" = true := by
  refine ⟨?_, ?_, ?_, ?_, ?_, ?_, ?_, ?_, ?_⟩ <;>
    simp [DF.paymentBody, DF.validatePayment, bodyHas_append, bodyHas_cons,
      bodyGet_append, bodyGet_cons, bodyHas_optStrField_self,
      bodyHas_optStrField_ne, bodyGet_optStrField_ne, truthyStr_empty]

/-- C7 counterexample: `validate_visitor`'s HTTP-error text does not include
the numeric status — refuting "the rendered error text includes the numeric
HTTP status" for every tool. -/
theorem validate_visitor_error_text_lacks_status_counterexample :
    (DF.validate_visitor "v1"
        (.httpError 500 "Internal Server Error" (some "boom"))).1.text
      = "❌ Visitor ID \"v1\" is invalid: boom"
    ∧ strHasSub (DF.validate_visitor "v1"
        (.httpError 500 "Internal Server Error" (some "boom"))).1.text "500" = false
    ∧ (DF.validate_visitor "v1"
        (.httpError 500 "Internal Server Error" (some "boom"))).1.isError = true := by
  refine ⟨?_, ?_, ?_⟩ <;> decide

/-- C7 (amended): on a non-2xx response the top-level error envelopes of
`create_payment`, `create_goal`, `get_visitor_data`, `get_analytics_summary`
and `create_revenue_goal`'s goal step render
`Error <status>: <error.message || statusText>` (the extracted message falls
back to the status text when parsing fails or yields an empty string), so
the numeric status appears there; but `validate_visitor` renders a
status-free invalid-visitor message with fixed hints for 400/404,
`batch_create_goals` renders a failed item as
`❌ <goal> for <visitor>: <error.message || statusText>` without the status,
and `create_revenue_goal`'s payment-step non-2xx is reported only as
`⚠️ Goal created but revenue tracking failed`, also without the status. -/
theorem error_text_status_rendering (st : Nat) (stx : String) (em : Option String) :
    strHasSub (errorLine st stx em) (toString st) = true
    ∧ (∀ p : DF.PaymentParams,
        (DF.create_payment p (.httpError st stx em)).1.text = errorLine st stx em)
    ∧ (∀ g : DF.GoalParams,
        strHasSub (DF.create_goal g (.httpError st stx em)).1.text (toString st) = true)
    ∧ (∀ (fmt : JNum → String) (id : String),
        strHasSub (DF.get_visitor_data fmt id
          (.httpError st stx em)).1.text (toString st) = true)
    ∧ (∀ (fmt : JNum → String) (id : String) (inc : Bool),
        (DF.get_analytics_summary fmt id inc (.httpError st stx em)).1.text
          = errorLine st stx em)
    ∧ (∀ (p : DF.RevenueGoalParams) (now : Nat) (pUp : Upstream DF.PaymentResult),
        strHasSub (DF.create_revenue_goal p now
          (.httpError st stx em) pUp).1.text (toString st) = true)
    ∧ (∀ id : String,
        (DF.validate_visitor id (.httpError st stx em)).1.text
          = "❌ Visitor ID \"" ++ id ++ "\" is invalid: "
            ++ (if st == 400 then "Detected as bot or invalid format"
                else if st == 404 then
                  "No pageviews found - visitor needs to visit your site first"
                else jsOr em stx))
    ∧ strHasSub (DF.validate_visitor "v"
        (.httpError 503 "Service Unavailable" none)).1.text "503" = false
    ∧ (∀ g : DF.GoalParams,
        DF.batchLine (DF.batchItemResult g (.httpError st stx em))
          = "   ❌ " ++ g.name ++ " for " ++ g.datafast_visitor_id ++ ": "
            ++ jsOr em stx ++ "\n")
    ∧ strHasSub (DF.batch_create_goals
        [({ datafast_visitor_id := "v1", name := "g1" },
          .httpError 502 "Bad Gateway" none)]).1.text "502" = false
    ∧ (∀ (p : DF.RevenueGoalParams) (now : Nat) (gr : DF.GoalResult),
        (DF.create_revenue_goal p now (.success gr)
          (.httpError st stx em)).1.text
          = "✅ Revenue goal created successfully!\n🎯 Goal: " ++ gr.message
            ++ "\n" ++ "\n⚠️ Goal created but revenue tracking failed")
    ∧ strHasSub (DF.create_revenue_goal rg0 1 (.success { message := "ok" })
        (.httpError 502 "Bad Gateway" none)).1.text "502" = false := by
  have hbase : strHasSub (errorLine st stx em) (toString st) = true := by
    apply strHasSub_app_l
    apply strHasSub_app_l
    apply strHasSub_app_r
    exact strHasSub_self _
  have hgoal : strHasSub (DF.goalErrorText st stx em) (toString st) = true := by
    by_cases h4 : st = 400
    · subst h4
      simp [DF.goalErrorText]
      exact strHasSub_app_l _ _ _ hbase
    · by_cases h44 : st = 404
      · subst h44
        simp [DF.goalErrorText]
        exact strHasSub_app_l _ _ _ hbase
      · simp [DF.goalErrorText, h4, h44]
        exact hbase
  refine ⟨hbase, ?_, ?_, ?_, ?_, ?_, ?_, ?_, ?_, ?_, ?_, ?_⟩
  · intro p
    rfl
  · intro g
    exact hgoal
  · intro fmt id
    exact strHasSub_app_l _ _ _ hbase
  · intro fmt id inc
    rfl
  · intro p now pUp
    exact hgoal
  · intro id
    rfl
  · decide
  · intro g
    rfl
  · decide
  · intro p now gr
    rfl
  · decide

/-- C8 counterexample: `track_payment` interpolates the raw amount into its
success text: the integral amount 30 renders as "30", not with exactly two
decimal places — refuting "payment amounts are rendered with exactly two
decimal places". -/
theorem track_payment_amount_not_two_decimals_counterexample :
    (okEnv (DFAlt.track_payment
        { visitorId := "v1", amount := ⟨30, 0⟩, currency := "USD",
          transactionId := "tx1" }
        (.success ⟨"Payment recorded", "tx1"⟩))).map
      (fun e => strHasSub e.text "Amount: 30 USD") = some true
    ∧ (okEnv (DFAlt.track_payment
        { visitorId := "v1", amount := ⟨30, 0⟩, currency := "USD",
          transactionId := "tx1" }
        (.success ⟨"Payment recorded", "tx1"⟩))).map
      (fun e => strHasSub e.text "30.00") = some false
    ∧ (okEnv (DFAlt.track_payment
        { visitorId := "v1", amount := ⟨30, 0⟩, currency := "USD",
          transactionId := "tx1" }
        (.success ⟨"Payment recorded", "tx1"⟩))).map
      (fun e => e.isError) = some false := by
  refine ⟨?_, ?_, ?_⟩ <;> decide

/-- C8 (amended): the spec's example values do render as stated (29.99 →
"29.99", rate 0.1234 → "12.34%", confidence 0.856 → "85.6%"); the main
server's prediction block renders the rate ×100 with two decimals, the
expected value with two decimals, the confidence ×100 with one decimal; but
`track_payment` renders the raw amount with no fixed-decimal formatting, and
the alternative server's visitor report renders the rate ×100 with one
decimal, not two. -/
theorem numeric_formatting :
    jsNumToString ⟨2999, 2⟩ = "29.99"
    ∧ toFixed (JNum.mul ⟨1234, 4⟩ ⟨100, 0⟩) 2 = "12.34"
    ∧ toFixed (JNum.mul ⟨856, 3⟩ ⟨100, 0⟩) 1 = "85.6"
    ∧ DF.predictionSection (some ⟨⟨20, 0⟩, ⟨1234, 4⟩, ⟨2999, 2⟩, ⟨856, 3⟩⟩)
        = "\n🎯 Prediction:\n   • Conversion score: 20/100\n   • Conversion rate: 12.34%\n   • Expected value: $29.99\n   • Confidence: 85.6%\n"
    ∧ (∀ pr : DF.Prediction,
        strHasSub (DF.predictionSection (some pr))
          (toFixed (JNum.mul pr.conversionRate ⟨100, 0⟩) 2) = true
        ∧ strHasSub (DF.predictionSection (some pr))
          (toFixed pr.expectedValue 2) = true
        ∧ strHasSub (DF.predictionSection (some pr))
          (toFixed (JNum.mul pr.confidence ⟨100, 0⟩) 1) = true)
    ∧ (∀ (p : DFAlt.TrackPaymentParams) (r : DF.PaymentResult),
        (okEnv (DFAlt.track_payment p (.success r))).map
          (fun e => strHasSub e.text (jsNumToString p.amount)) = some true)
    ∧ (∀ pr : DFAlt.V1Prediction,
        strHasSub (DFAlt.v1PredictionText pr)
          (toFixed (JNum.mul pr.conversion_rate ⟨100, 0⟩) 1) = true) := by
  refine ⟨by decide, by decide, by decide, by decide, ?_, ?_, ?_⟩
  · intro pr
    refine ⟨?_, ?_, ?_⟩
    · apply strHasSub_app_l
      apply strHasSub_app_l
      apply strHasSub_app_l
      apply strHasSub_app_l
      apply strHasSub_app_l
      apply strHasSub_app_l
      apply strHasSub_app_l
      apply strHasSub_app_r
      exact strHasSub_self _
    · apply strHasSub_app_l
      apply strHasSub_app_l
      apply strHasSub_app_l
      apply strHasSub_app_l
      apply strHasSub_app_r
      exact strHasSub_self _
    · apply strHasSub_app_l
      apply strHasSub_app_r
      exact strHasSub_self _
  · intro p r
    refine congrArg some ?_
    apply strHasSub_app_l
    apply strHasSub_app_l
    apply strHasSub_app_l
    apply strHasSub_app_l
    apply strHasSub_app_l
    apply strHasSub_app_r
    exact strHasSub_self _
  · intro pr
    refine strHasSub_app_l _ _ _ ?_
    apply strHasSub_app_l
    apply strHasSub_app_l
    apply strHasSub_app_l
    apply strHasSub_app_l
    apply strHasSub_app_l
    apply strHasSub_app_l
    apply strHasSub_app_l
    apply strHasSub_app_r
    exact strHasSub_self _

